import Mathlib

/-!
Verification development for the trialytics execution-and-staging engine.

The definitions below are a shallow embedding of the Python sources:
- `execute_code`, `run_code` from `backend-services/modal_server/modal_executor.py`
- `run` (here `quick_run`) from `backend-services/modal_quick_sandbox.py`
- `run_notebook_cell` from `backend-services/modal_sandbox_test.py`

Submitted code strings are modelled as sequences of observable statements
(write to stdout, write to stderr, bind a variable, raise a fault); external
libraries (requests, pandas, pyreadstat, PyPDF2) are modelled as an explicit
`Libs` record of fallible functions supplied by the environment.
-/

namespace Trialytics

/-- A raised Python exception: its concrete type name and its message. -/
structure Fault where
  kind : String
  msg : String
deriving DecidableEq

/-- Model of `traceback.format_exc()`: a full trace record ending with the
fault rendered as `kind: message`. -/
def format_exc (e : Fault) : String :=
  "Traceback (most recent call last):\n  File \"<string>\", line 1, in <module>\n"
    ++ e.kind ++ ": " ++ e.msg ++ "\n"

/-- The error string built in the `except` branch of `execute_code`:
`f"{type(e).__name__}: {e}\n{traceback.format_exc()}"`. -/
def mkError (e : Fault) : String :=
  e.kind ++ ": " ++ e.msg ++ "\n" ++ format_exc e

/-- A pandas DataFrame, abstracted to its column names and string-rendered
cells (enough to model `read_csv` / `to_csv`). -/
structure DataFrame where
  cols : List String
  rows : List (List String)
deriving DecidableEq

/-- Model of `df.to_csv(index=False)`: header line then one line per row, no index
column, trailing newline. -/
def to_csv (d : DataFrame) : String :=
  String.intercalate "," d.cols ++ "\n"
    ++ String.join (d.rows.map (fun r => String.intercalate "," r ++ "\n"))

/-- Runtime values that can be bound in the execution namespace. -/
inductive Value where
  | str (s : String)
  | int (n : Int)
  | bytes (bs : List Nat)
  | df (d : DataFrame)
  | metaRec (m : String)
  | pdfDoc (pages : List String)
  | obj (ty : String) (pickle_ok : Bool)
deriving DecidableEq

/-- Python `type(v).__name__`. -/
def typeName : Value → String
  | Value.str _ => "str"
  | Value.int _ => "int"
  | Value.bytes _ => "bytes"
  | Value.df _ => "DataFrame"
  | Value.metaRec _ => "metadata_container"
  | Value.pdfDoc _ => "PdfReader"
  | Value.obj t _ => t

/-- The serializability probe: does `pickle.dumps(v)` succeed?
Plain data succeeds; a PDF reader (holding a stream) and opaque objects
flagged unpicklable fail. -/
def picklable : Value → Bool
  | Value.obj _ p => p
  | Value.pdfDoc _ => false
  | _ => true

/-- Python `len(v)`: defined for sized values, raises `TypeError` otherwise. -/
def pyLen : Value → Except Fault Nat
  | Value.str s => Except.ok s.length
  | Value.bytes bs => Except.ok bs.length
  | Value.df d => Except.ok d.rows.length
  | Value.pdfDoc pages => Except.ok pages.length
  | v => Except.error
      { kind := "TypeError",
        msg := "object of type \x27" ++ typeName v ++ "\x27 has no len()" }

/-- UTF-8 encoding of one character. -/
def utf8EncodeCharM (c : Char) : List Nat :=
  let n := c.toNat
  if n < 0x80 then [n]
  else if n < 0x800 then [0xC0 + n / 0x40, 0x80 + n % 0x40]
  else if n < 0x10000 then
    [0xE0 + n / 0x1000, 0x80 + (n / 0x40) % 0x40, 0x80 + n % 0x40]
  else
    [0xF0 + n / 0x40000, 0x80 + (n / 0x1000) % 0x40,
     0x80 + (n / 0x40) % 0x40, 0x80 + n % 0x40]

/-- UTF-8 encoding of a character list. -/
def utf8BytesL : List Char → List Nat
  | [] => []
  | c :: r => utf8EncodeCharM c ++ utf8BytesL r

/-- Python `s.encode("utf-8")`. -/
def utf8Bytes (s : String) : List Nat :=
  utf8BytesL s.data

/-- Bool test: does `pat` occur at the start of `s`? -/
def isPrefOf : List Char → List Char → Bool
  | [], _ => true
  | _ :: _, [] => false
  | a :: p, b :: s => a = b && isPrefOf p s

/-- Bool test: does `pat` occur anywhere in `s`? -/
def occursIn (pat : List Char) : List Char → Bool
  | [] => isPrefOf pat []
  | b :: s => isPrefOf pat (b :: s) || occursIn pat s

/-- Substring containment on strings, decidably. -/
def strContainsB (s pat : String) : Bool := occursIn pat.data s.data

/-- Python `key.startswith("__")`. -/
def startsDunder (k : String) : Bool := isPrefOf "__".data k.data

/-- The execution namespace: an insertion-ordered mapping from variable
names to values, as a Python dict. -/
abbrev Namespace := List (String × Value)

/-- Dict lookup. -/
def nsGet (ns : Namespace) (k : String) : Option Value :=
  match ns with
  | [] => none
  | (k2, v) :: r => if k2 = k then some v else nsGet r k

/-- Dict assignment: overwrite in place if present, append otherwise. -/
def nsSet (ns : Namespace) (k : String) (v : Value) : Namespace :=
  match ns with
  | [] => [(k, v)]
  | (k2, w) :: r => if k2 = k then (k2, v) :: r else (k2, w) :: nsSet r k v

/-- A submitted code string, modelled by its observable behaviour:
printed lines, raw stdout writes, stderr prints, variable bindings,
and raised faults. -/
inductive Stmt where
  | print (s : String)
  | write (s : String)
  | eprint (s : String)
  | bind (x : String) (v : Value)
  | raiseF (kind msg : String)
deriving DecidableEq

abbrev Code := List Stmt

/-- The two capture buffers installed by the harness
(`stdout = io.StringIO(); stderr = io.StringIO()`). -/
structure Cap where
  out : String
  err : String
deriving DecidableEq

/-- Model of `print(s)`: write `s` and a newline to the stdout buffer. -/
def capPrint (cap : Cap) (s : String) : Cap :=
  { cap with out := cap.out ++ s ++ "\n" }

/-- Model of `sys.stdout.write(s)`: raw write, no newline. -/
def capWrite (cap : Cap) (s : String) : Cap :=
  { cap with out := cap.out ++ s }

/-- Model of `print(s, file=sys.stderr)`: write `s` and a newline to the stderr
buffer. -/
def capEPrint (cap : Cap) (s : String) : Cap :=
  { cap with err := cap.err ++ s ++ "\n" }

/-- State threaded through `exec(code, exec_namespace)`: the namespace and
the capture buffers. -/
structure ExecSt where
  ns : Namespace
  cap : Cap
deriving DecidableEq

/-- Model of `exec(code, exec_namespace)`: run statements in order; a raised fault
aborts the remaining statements. -/
def runStmts : Code → ExecSt → ExecSt × Option Fault
  | [], st => (st, none)
  | Stmt.print s :: rest, st => runStmts rest { st with cap := capPrint st.cap s }
  | Stmt.write s :: rest, st => runStmts rest { st with cap := capWrite st.cap s }
  | Stmt.eprint s :: rest, st => runStmts rest { st with cap := capEPrint st.cap s }
  | Stmt.bind x v :: rest, st => runStmts rest { st with ns := nsSet st.ns x v }
  | Stmt.raiseF k m :: _, st => (st, some { kind := k, msg := m })

/-- Does the code consist only of text output (stdout or stderr), with no
bindings and no raised fault? -/
def onlyPrints : Code → Bool
  | [] => true
  | Stmt.print _ :: r => onlyPrints r
  | Stmt.write _ :: r => onlyPrints r
  | Stmt.eprint _ :: r => onlyPrints r
  | _ => false

/-- The text the code itself writes to stdout, up to the first raised
fault (the whole code when it raises nothing). -/
def printedUntilFault : Code → String
  | [] => ""
  | Stmt.print s :: r => s ++ "\n" ++ printedUntilFault r
  | Stmt.write s :: r => s ++ printedUntilFault r
  | Stmt.raiseF _ _ :: _ => ""
  | _ :: r => printedUntilFault r

/-- The text the code writes to stderr, up to the first raised fault. -/
def eprintedUntilFault : Code → String
  | [] => ""
  | Stmt.eprint s :: r => s ++ "\n" ++ eprintedUntilFault r
  | Stmt.raiseF _ _ :: _ => ""
  | _ :: r => eprintedUntilFault r

/-- The first fault the code raises, if any. -/
def faultOf : Code → Option Fault
  | [] => none
  | Stmt.raiseF k m :: _ => some { kind := k, msg := m }
  | _ :: r => faultOf r

/-- A process-wide output sink (`sys.stdout` / `sys.stderr` can point at
one of these). -/
inductive Sink where
  | dunderOut
  | dunderErr
  | buf (n : Nat)
  | ext (n : Nat)
deriving DecidableEq

/-- The process-wide sink state: where `sys.stdout` and `sys.stderr`
currently point. -/
structure Sinks where
  stdout : Sink
  stderr : Sink
deriving DecidableEq

/-- The external libraries the executor calls, as fallible functions:
`requests.get(url).content` (after `raise_for_status`), `pd.read_csv`,
`pyreadstat.read_xport`, `PyPDF2.PdfReader` (yielding its page list), and
`requests.put` (after `raise_for_status`). -/
structure Libs where
  requests_get : String → Except Fault (List Nat)
  read_csv : List Nat → Except Fault DataFrame
  read_xport : List Nat → Except Fault (DataFrame × String)
  PdfReader : List Nat → Except Fault (List String)
  requests_put : String → Value → Except Fault Unit

/-- Result of one phase of the try-block of `execute_code`. -/
structure PhaseOut where
  cap : Cap
  ns : Namespace
  fault : Option Fault
deriving DecidableEq

/-- Python `f"{n:,}"`: digit grouping with commas (helper on reversed
digit lists). -/
def commaGroups : List Char → List Char
  | a :: b :: c :: d :: rest => a :: b :: c :: ',' :: commaGroups (d :: rest)
  | l => l

/-- Python `f"{n:,}"` for a natural number. -/
def fmtComma (n : Nat) : String :=
  String.mk ((commaGroups (toString n).data.reverse).reverse)

/-- Python `repr` of a string (single-quoted). -/
def pyRepr (s : String) : String := "\x27" ++ s ++ "\x27"

/-- Python rendering of `list(df.columns)`. -/
def pyStrList (l : List String) : String :=
  "[" ++ String.intercalate ", " (l.map pyRepr) ++ "]"

/-- The initial `exec_namespace` built by `execute_code`:
`__builtins__` plus the pre-imported `requests`, `pd`, `np`, `io` modules. -/
def initialNs : Namespace :=
  [("__builtins__", Value.obj "module" false),
   ("requests", Value.obj "module" false),
   ("pd", Value.obj "module" false),
   ("np", Value.obj "module" false),
   ("io", Value.obj "module" false)]

/-- The input-handling block of `execute_code` (lines 79-108): download the
input file, always bind the raw bytes as `file_content`, then decode by
type hint (`csv` → `df`; `xpt` → `df` and `meta`; `pdf` → `pdf_reader`),
with the same diagnostics the source prints. -/
def inputPhase (libs : Libs) (url : String) (file_type : Option String)
    (cap : Cap) (ns : Namespace) : PhaseOut :=
  let cap := capPrint cap "📥 Downloading input file from S3..."
  match libs.requests_get url with
  | Except.error e => { cap := cap, ns := ns, fault := some e }
  | Except.ok file_content =>
    let cap := capPrint cap ("✅ Downloaded " ++ fmtComma file_content.length ++ " bytes")
    let ns := nsSet ns "file_content" (Value.bytes file_content)
    if file_type = some "csv" then
      match libs.read_csv file_content with
      | Except.error e => { cap := cap, ns := ns, fault := some e }
      | Except.ok d =>
        let ns := nsSet ns "df" (Value.df d)
        let cap := capPrint cap ("📊 Loaded CSV: " ++ fmtComma d.rows.length
          ++ " rows, " ++ toString d.cols.length ++ " columns")
        let cap := capPrint cap ("📋 Columns: " ++ pyStrList d.cols)
        { cap := cap, ns := ns, fault := none }
    else if file_type = some "xpt" then
      match libs.read_xport file_content with
      | Except.error e => { cap := cap, ns := ns, fault := some e }
      | Except.ok dm =>
        let ns := nsSet ns "df" (Value.df dm.1)
        let ns := nsSet ns "meta" (Value.metaRec dm.2)
        let cap := capPrint cap ("📊 Loaded XPT: " ++ fmtComma dm.1.rows.length
          ++ " rows, " ++ toString dm.1.cols.length ++ " columns")
        let cap := capPrint cap ("📋 Columns: " ++ pyStrList dm.1.cols)
        { cap := cap, ns := ns, fault := none }
    else if file_type = some "pdf" then
      match libs.PdfReader file_content with
      | Except.error e => { cap := cap, ns := ns, fault := some e }
      | Except.ok pages =>
        let ns := nsSet ns "pdf_reader" (Value.pdfDoc pages)
        let cap := capPrint cap ("📄 Loaded PDF: " ++ toString pages.length ++ " pages")
        { cap := cap, ns := ns, fault := none }
    else { cap := cap, ns := ns, fault := none }

/-- Everything `execute_code` does before running user code: build the
initial namespace and, when an input URL is present, run the input phase. -/
def preExecPhase (libs : Libs) (input_file_url : Option String)
    (file_type : Option String) : PhaseOut :=
  match input_file_url with
  | some url => inputPhase libs url file_type { out := "", err := "" } initialNs
  | none => { cap := { out := "", err := "" }, ns := initialNs, fault := none }

/-- The byte-conversion chain of `execute_code` lines 119-125: a `str`
becomes its UTF-8 bytes, a `DataFrame` becomes the UTF-8 bytes of
`to_csv(index=False)`, and anything else is passed through unchanged. -/
def serializeOut : Value → Value
  | Value.str s => Value.bytes (utf8Bytes s)
  | Value.df d => Value.bytes (utf8Bytes (to_csv d))
  | v => v

/-- The output-handling block of `execute_code` (lines 115-134): if the
namespace binds `output_content`, serialize it with `serializeOut` and
attempt the upload. Returns the capture buffers, the list of attempted
uploads, and the fault if one was raised. -/
def outputPhase (libs : Libs) (url : String) (ns : Namespace) (cap : Cap) :
    Cap × List (String × Value) × Option Fault :=
  match nsGet ns "output_content" with
  | none => (cap, [], none)
  | some output_content =>
    let cap := capPrint cap "\n📤 Uploading output file to S3..."
    let output_bytes : Value := serializeOut output_content
    match libs.requests_put url output_bytes with
    | Except.error e => (cap, [(url, output_bytes)], some e)
    | Except.ok _ =>
      match pyLen output_bytes with
      | Except.error e => (cap, [(url, output_bytes)], some e)
      | Except.ok n =>
        (capPrint cap ("✅ Successfully uploaded to S3 (" ++ fmtComma n ++ " bytes)"),
         [(url, output_bytes)], none)

/-- The whole try-block of `execute_code`: input phase, the
`=== Executing User Code ===` banner, `exec`, then the output phase.
Yields the final capture buffers, the attempted uploads, and the first
fault raised anywhere in the block. -/
def execBody (libs : Libs) (code : Code)
    (input_file_url output_file_url file_type : Option String) :
    Cap × List (String × Value) × Option Fault :=
  let p := preExecPhase libs input_file_url file_type
  match p.fault with
  | some e => (p.cap, [], some e)
  | none =>
    let stp := runStmts code
      { ns := p.ns, cap := capPrint p.cap "\n=== Executing User Code ===\n" }
    match stp.2 with
    | some e => (stp.1.cap, [], some e)
    | none =>
      match output_file_url with
      | none => (stp.1.cap, [], none)
      | some url => outputPhase libs url stp.1.ns stp.1.cap

/-- The dictionary `execute_code` returns. -/
structure ExecResult where
  success : Bool
  output : String
  error : Option String
  execution_time : Option Nat
deriving DecidableEq

/-- Full observable outcome of one `execute_code` call: the returned
result, the uploads attempted against the output URL, and the
process-wide sink state after the `finally` block ran. -/
structure ExecOutcome where
  result : ExecResult
  uploads : List (String × Value)
  sinks : Sinks
deriving DecidableEq

/-- Embedding of `execute_code` from `modal_executor.py`: save the current sinks,
install capture buffers, run the try-block; on a fault return
`success=False` with the captured stdout and the rendered fault; on
success return `success=True` with the captured stdout and the captured
stderr (or `None` when empty); the `finally` block restores the saved
sinks on every path. -/
def execute_code (libs : Libs) (code : Code)
    (input_file_url output_file_url file_type : Option String)
    (pre : Sinks) : ExecOutcome :=
  let old_stdout := pre.stdout
  let old_stderr := pre.stderr
  let b := execBody libs code input_file_url output_file_url file_type
  match b.2.2 with
  | some e =>
    { result := { success := false, output := b.1.out,
                  error := some (mkError e), execution_time := none },
      uploads := b.2.1,
      sinks := { stdout := old_stdout, stderr := old_stderr } }
  | none =>
    { result := { success := true, output := b.1.out,
                  error := if b.1.err = "" then none else some b.1.err,
                  execution_time := none },
      uploads := b.2.1,
      sinks := { stdout := old_stdout, stderr := old_stderr } }

/-- Embedding of `run_code` from `modal_executor.py`: dispatch `execute_code` to the
remote worker; any fault raised by the dispatch itself (modelled by
`modalErr`) is wrapped as a generic `Modal execution error` failure. -/
def run_code (libs : Libs) (code : Code) (timeout : Nat)
    (input_file_url output_file_url file_type : Option String)
    (pre : Sinks) (modalErr : Option String) : ExecResult :=
  let _ := min timeout 600
  match modalErr with
  | some emsg =>
    { success := false, output := "",
      error := some ("Modal execution error: " ++ emsg), execution_time := none }
  | none => (execute_code libs code input_file_url output_file_url file_type pre).result

/-- The dictionary `run` in `modal_quick_sandbox.py` returns. -/
structure QuickResult where
  success : Bool
  output : String
  error : String
deriving DecidableEq

/-- Embedding of `run` from `modal_quick_sandbox.py`: capture, `exec(code)`, and a
`finally` block that sets the sinks to the interpreter originals
`sys.__stdout__` / `sys.__stderr__` (NOT the sinks saved at entry —
nothing is saved at entry). -/
def quick_run (code : Code) (pre : Sinks) : QuickResult × Sinks :=
  let _ := pre
  let stp := runStmts code { ns := [], cap := { out := "", err := "" } }
  let r : QuickResult :=
    match stp.2 with
    | none => { success := true, output := stp.1.cap.out, error := stp.1.cap.err }
    | some e => { success := false, output := stp.1.cap.out,
                  error := e.msg ++ "\n" ++ format_exc e }
  (r, { stdout := Sink.dunderOut, stderr := Sink.dunderErr })

/-- The session-state filter of `run_notebook_cell` (lines 143-154): drop
every dunder name; keep a picklable value as-is; replace an unpicklable
value by the string `f"<{type(value).__name__} object>"`. -/
def filterState : Namespace → Namespace
  | [] => []
  | (k, v) :: r =>
    if startsDunder k then filterState r
    else (k, if picklable v then v
             else Value.str ("<" ++ typeName v ++ " object>")) :: filterState r

/-- The namespace `run_notebook_cell` executes against:
`previous_state if previous_state else {}`, into which `exec` injects
`__builtins__` when absent. -/
def notebook_initial_ns (previous_state : Namespace) : Namespace :=
  let e := if previous_state.isEmpty then [] else previous_state
  if (nsGet e "__builtins__").isSome then e
  else nsSet e "__builtins__" (Value.obj "module" false)

/-- The `exec` step of `run_notebook_cell`, with empty capture buffers. -/
def notebook_exec (code : Code) (previous_state : Namespace) :
    ExecSt × Option Fault :=
  runStmts code { ns := notebook_initial_ns previous_state,
                  cap := { out := "", err := "" } }

/-- The dictionary `run_notebook_cell` returns. -/
structure NotebookResult where
  output : String
  error : String
  state : Namespace
  success : Bool
deriving DecidableEq

/-- Embedding of `run_notebook_cell` from `modal_sandbox_test.py`: restore the prior
state, `exec` the cell, and on success filter the namespace into the
returned state; on a fault the state stays the initial empty dict and the
error carries the rendered fault. -/
def run_notebook_cell (code : Code) (previous_state : Namespace) : NotebookResult :=
  let stp := notebook_exec code previous_state
  match stp.2 with
  | some e =>
    { output := stp.1.cap.out,
      error := e.kind ++ ": " ++ e.msg ++ "\n" ++ format_exc e,
      state := [], success := false }
  | none =>
    { output := stp.1.cap.out, error := "",
      state := filterState stp.1.ns, success := true }

/-- Concrete library environment used to instantiate the theorems:
downloads yield the bytes of `"a,b\n1,2"`, decoding yields small fixed
values, and `requests.put` accepts a bytes payload and raises `TypeError`
on anything else (as the HTTP client does for a non-bytes body). -/
def testLibs : Libs where
  requests_get := fun _ => Except.ok [97, 44, 98, 10, 49, 44, 50]
  read_csv := fun _ => Except.ok { cols := ["a", "b"], rows := [["1", "2"]] }
  read_xport := fun _ => Except.ok ({ cols := ["x"], rows := [["1"]] }, "m")
  PdfReader := fun _ => Except.ok ["page one"]
  requests_put := fun _ v =>
    match v with
    | Value.bytes _ => Except.ok ()
    | _ => Except.error { kind := "TypeError", msg := "a bytes-like object is required" }

/-- A sink state with the interpreter originals installed. -/
def sinks0 : Sinks := { stdout := Sink.dunderOut, stderr := Sink.dunderErr }

/-- The banner `execute_code` prints before running user code, as it
appears in the capture buffer. -/
def bannerText : String := "\n=== Executing User Code ===\n\n"

/-! ### Helper lemmas -/

theorem str_append_empty (s : String) : s ++ "" = s := by
  cases s with
  | mk d =>
    show String.mk (d ++ []) = String.mk d
    rw [List.append_nil]

theorem runStmts_snd (code : Code) (st : ExecSt) :
    (runStmts code st).2 = faultOf code := by
  induction code generalizing st with
  | nil => rfl
  | cons s rest ih =>
    cases s with
    | print t => simpa [runStmts, faultOf] using ih _
    | write t => simpa [runStmts, faultOf] using ih _
    | eprint t => simpa [runStmts, faultOf] using ih _
    | bind x v => simpa [runStmts, faultOf] using ih _
    | raiseF k m => rfl

theorem runStmts_cap (code : Code) (st : ExecSt) :
    (runStmts code st).1.cap.out = st.cap.out ++ printedUntilFault code ∧
    (runStmts code st).1.cap.err = st.cap.err ++ eprintedUntilFault code := by
  induction code generalizing st with
  | nil => simp [runStmts, printedUntilFault, eprintedUntilFault, str_append_empty]
  | cons s rest ih =>
    cases s with
    | print t =>
      simpa [runStmts, capPrint, printedUntilFault, eprintedUntilFault,
        String.append_assoc] using ih { st with cap := capPrint st.cap t }
    | write t =>
      simpa [runStmts, capWrite, printedUntilFault, eprintedUntilFault,
        String.append_assoc] using ih { st with cap := capWrite st.cap t }
    | eprint t =>
      simpa [runStmts, capEPrint, printedUntilFault, eprintedUntilFault,
        String.append_assoc] using ih { st with cap := capEPrint st.cap t }
    | bind x v =>
      simpa [runStmts, printedUntilFault, eprintedUntilFault]
        using ih { st with ns := nsSet st.ns x v }
    | raiseF k m =>
      simp [runStmts, printedUntilFault, eprintedUntilFault, str_append_empty]

theorem onlyPrints_noFault (code : Code) (h : onlyPrints code = true) :
    faultOf code = none := by
  induction code with
  | nil => rfl
  | cons s rest ih =>
    cases s <;> simp_all [onlyPrints, faultOf]

theorem isPrefOf_append_self (l r : List Char) : isPrefOf l (l ++ r) = true := by
  induction l with
  | nil => rfl
  | cons a p ih => simp [isPrefOf, ih]

theorem occursIn_of_pref {p s : List Char} (h : isPrefOf p s = true) :
    occursIn p s = true := by
  cases s with
  | nil => simpa [occursIn] using h
  | cons b t => simp [occursIn, h]

theorem occursIn_append_left (a : List Char) {p s : List Char}
    (h : occursIn p s = true) : occursIn p (a ++ s) = true := by
  induction a with
  | nil => simpa using h
  | cons c t ih => simp [occursIn, ih]

theorem strContainsB_suffix (x y : String) : strContainsB (x ++ y) y = true := by
  unfold strContainsB
  rw [String.data_append]
  exact occursIn_append_left x.data
    (occursIn_of_pref (by simpa using isPrefOf_append_self y.data []))

theorem strContainsB_pref (x y : String) : strContainsB (y ++ x) y = true := by
  unfold strContainsB
  rw [String.data_append]
  exact occursIn_of_pref (isPrefOf_append_self y.data x.data)

theorem mkError_eq (e : Fault) :
    mkError e = e.kind ++ (": " ++ e.msg ++ "\n" ++ format_exc e) := by
  simp [mkError, String.append_assoc]

theorem str_ne_empty_of_data {s : String} (h : s.data ≠ []) : s ≠ "" := by
  intro he
  exact h (by rw [he])

theorem mkError_ne_empty (e : Fault) : mkError e ≠ "" := by
  apply str_ne_empty_of_data
  simp [mkError, format_exc, String.data_append]

theorem nsGet_nsSet_ne (ns : Namespace) (k x : String) (v : Value) (h : k ≠ x) :
    nsGet (nsSet ns k v) x = nsGet ns x := by
  induction ns with
  | nil => simp [nsSet, nsGet, h]
  | cons hd tl ih =>
    by_cases hk : hd.1 = k
    · subst hk
      simp [nsSet, nsGet, h]
    · cases hd with
      | mk k2 w =>
        simp only [nsSet, nsGet] at *
        rw [if_neg hk]
        by_cases hx : k2 = x
        · simp [nsGet, hx]
        · simp [nsGet, hx, ih]

theorem nsGet_ne_nil {ns : Namespace} {x : String} {v : Value}
    (h : nsGet ns x = some v) : ns.isEmpty = false := by
  cases ns with
  | nil => simp [nsGet] at h
  | cons hd tl => rfl

theorem filterState_get_dunder (ns : Namespace) (k : String)
    (hk : startsDunder k = true) : nsGet (filterState ns) k = none := by
  induction ns with
  | nil => rfl
  | cons hd tl ih =>
    cases hd with
    | mk k2 v2 =>
      by_cases hd2 : startsDunder k2
      · simpa [filterState, hd2] using ih
      · have hne : k2 ≠ k := by
          intro he
          rw [he, hk] at hd2
          exact hd2 rfl
        simpa [filterState, hd2, nsGet, hne] using ih

theorem filterState_get (ns : Namespace) (k : String) (v : Value)
    (hk : startsDunder k = false) (hv : nsGet ns k = some v) :
    nsGet (filterState ns) k
      = some (if picklable v then v
              else Value.str ("<" ++ typeName v ++ " object>")) := by
  induction ns with
  | nil => simp [nsGet] at hv
  | cons hd tl ih =>
    cases hd with
    | mk k2 v2 =>
      by_cases he : k2 = k
      · subst he
        simp only [nsGet, if_pos rfl] at hv
        cases hv
        simp [filterState, hk, nsGet]
      · simp only [nsGet, if_neg he] at hv
        by_cases hd2 : startsDunder k2
        · simpa [filterState, hd2] using ih hv
        · simpa [filterState, hd2, nsGet, he] using ih hv

theorem notebook_initial_ns_get {s : Namespace} {x : String} {v : Value}
    (hx : startsDunder x = false) (hv : nsGet s x = some v) :
    nsGet (notebook_initial_ns s) x = some v := by
  have hne : ("__builtins__" : String) ≠ x := by
    intro he
    rw [← he] at hx
    exact absurd hx (by decide)
  cases s with
  | nil => simp [nsGet] at hv
  | cons hd tl =>
    show nsGet (if (nsGet (hd :: tl) "__builtins__").isSome
        then hd :: tl
        else nsSet (hd :: tl) "__builtins__" (Value.obj "module" false)) x
      = some v
    by_cases hbi : (nsGet (hd :: tl) "__builtins__").isSome = true
    · rw [if_pos hbi]
      exact hv
    · rw [if_neg hbi]
      rw [nsGet_nsSet_ne _ _ _ _ hne]
      exact hv

theorem str_empty_append (s : String) : "" ++ s = s := by
  cases s with
  | mk d =>
    show String.mk ([] ++ d) = String.mk d
    rw [List.nil_append]

theorem str_append_left_ne_empty (a b : String) (ha : a ≠ "") : a ++ b ≠ "" := by
  intro h
  apply ha
  have hd : a.data ++ b.data = [] := by
    have h2 := congrArg String.data h
    rwa [String.data_append] at h2
  have h3 : a.data = [] := (List.append_eq_nil.mp hd).1
  exact String.ext (by simp [h3])

theorem execute_code_uploads (libs : Libs) (code : Code)
    (iu ou ft : Option String) (pre : Sinks) :
    (execute_code libs code iu ou ft pre).uploads
      = (execBody libs code iu ou ft).2.1 := by
  cases hb : (execBody libs code iu ou ft).2.2 <;>
    simp only [execute_code, hb]

theorem outputPhase_uploads (libs : Libs) (url : String) (ns : Namespace)
    (cap : Cap) (v : Value) (hv : nsGet ns "output_content" = some v) :
    (outputPhase libs url ns cap).2.1 = [(url, serializeOut v)] := by
  simp only [outputPhase, hv]
  cases hput : libs.requests_put url (serializeOut v) with
  | error e => simp
  | ok u =>
    cases hlen : pyLen (serializeOut v) with
    | error e => simp
    | ok n => simp

/-! ### Claims -/

/-- Claim C1, counterexample to the claim as stated: for the code that
only prints `"hi"`, the captured output is NOT byte-for-byte the printed
text `"hi\n"` — `execute_code` prepends its
`=== Executing User Code ===` banner (line 111 of the source) to every
captured output. -/
theorem claim_C1_counterexample :
    onlyPrints [Stmt.print "hi"] = true ∧
    (execute_code testLibs [Stmt.print "hi"] none none none
        sinks0).result.output
      ≠ printedUntilFault [Stmt.print "hi"] := by
  decide

/-- Claim C1 (amended): for every code that only prints text and raises
no fault, executing it with no input URL and no output URL returns
`success = true`, and the captured output equals the fixed banner
`"\n=== Executing User Code ===\n\n"` followed byte-for-byte by exactly
the text the code printed; success is `true` even when the captured
error stream is non-empty (the error field then carries the stderr text,
without flipping success). -/
theorem claim_C1_theorem (libs : Libs) (pre : Sinks) (code : Code)
    (h : onlyPrints code = true) :
    (execute_code libs code none none none pre).result.success = true ∧
    (execute_code libs code none none none pre).result.output
      = bannerText ++ printedUntilFault code ∧
    (execute_code libs code none none none pre).result.error
      = (if eprintedUntilFault code = "" then none
         else some (eprintedUntilFault code)) := by
  have hf : faultOf code = none := onlyPrints_noFault code h
  have hsnd := runStmts_snd code
    { ns := initialNs,
      cap := capPrint { out := "", err := "" } "\n=== Executing User Code ===\n" }
  rw [hf] at hsnd
  have hcap := runStmts_cap code
    { ns := initialNs,
      cap := capPrint { out := "", err := "" } "\n=== Executing User Code ===\n" }
  have hb : execBody libs code none none none
      = ((runStmts code
          { ns := initialNs,
            cap := capPrint { out := "", err := "" }
              "\n=== Executing User Code ===\n" }).1.cap, [], none) := by
    simp only [execBody, preExecPhase]
    rw [hsnd]
  have hout : (capPrint { out := "", err := "" }
      "\n=== Executing User Code ===\n").out = bannerText := by decide
  have herr : (capPrint { out := "", err := "" }
      "\n=== Executing User Code ===\n").err = "" := rfl
  refine ⟨?_, ?_, ?_⟩
  · simp only [execute_code, hb]
  · simp only [execute_code, hb]
    rw [hcap.1, hout]
  · simp only [execute_code, hb]
    rw [hcap.2, herr, str_empty_append]

/-- Claim C1, witness for the amended theorem at a concrete input. -/
theorem claim_C1_witness :
    (execute_code testLibs [Stmt.print "hi", Stmt.eprint "warn"]
        none none none sinks0).result.success = true ∧
    (execute_code testLibs [Stmt.print "hi", Stmt.eprint "warn"]
        none none none sinks0).result.output
      = bannerText ++ printedUntilFault [Stmt.print "hi", Stmt.eprint "warn"] ∧
    (execute_code testLibs [Stmt.print "hi", Stmt.eprint "warn"]
        none none none sinks0).result.error
      = (if eprintedUntilFault [Stmt.print "hi", Stmt.eprint "warn"] = ""
         then none
         else some (eprintedUntilFault [Stmt.print "hi", Stmt.eprint "warn"])) :=
  claim_C1_theorem testLibs sinks0 [Stmt.print "hi", Stmt.eprint "warn"] rfl

/-- Claim C2: when the submitted code raises a fault (and the input phase
itself did not fault), the result has `success = false`, its error field
is exactly `"<fault-kind>: <message>"` followed by the full trace record,
the error contains the fault kind name as a substring, and the output
contains everything the code printed before the fault point. -/
theorem claim_C2_theorem (libs : Libs) (code : Code) (iu ou ft : Option String)
    (pre : Sinks) (e : Fault)
    (hpre : (preExecPhase libs iu ft).fault = none)
    (hf : faultOf code = some e) :
    (execute_code libs code iu ou ft pre).result.success = false ∧
    (execute_code libs code iu ou ft pre).result.error
      = some (e.kind ++ ": " ++ e.msg ++ "\n" ++ format_exc e) ∧
    strContainsB ((execute_code libs code iu ou ft pre).result.error.getD "")
      e.kind = true ∧
    strContainsB (execute_code libs code iu ou ft pre).result.output
      (printedUntilFault code) = true := by
  have hsnd := runStmts_snd code
    { ns := (preExecPhase libs iu ft).ns,
      cap := capPrint (preExecPhase libs iu ft).cap
        "\n=== Executing User Code ===\n" }
  rw [hf] at hsnd
  have hcap := runStmts_cap code
    { ns := (preExecPhase libs iu ft).ns,
      cap := capPrint (preExecPhase libs iu ft).cap
        "\n=== Executing User Code ===\n" }
  have hb : execBody libs code iu ou ft
      = ((runStmts code
          { ns := (preExecPhase libs iu ft).ns,
            cap := capPrint (preExecPhase libs iu ft).cap
              "\n=== Executing User Code ===\n" }).1.cap, [], some e) := by
    simp only [execBody]
    rw [hpre, hsnd]
  refine ⟨?_, ?_, ?_, ?_⟩
  · simp only [execute_code, hb]
  · simp only [execute_code, hb]
    rfl
  · simp only [execute_code, hb, Option.getD]
    rw [mkError_eq]
    exact strContainsB_pref _ _
  · simp only [execute_code, hb]
    rw [hcap.1]
    exact strContainsB_suffix _ _

/-- Claim C2, witness at a concrete input. -/
theorem claim_C2_witness :
    (execute_code testLibs [Stmt.print "a", Stmt.raiseF "ValueError" "boom"]
        none none none sinks0).result.success = false ∧
    (execute_code testLibs [Stmt.print "a", Stmt.raiseF "ValueError" "boom"]
        none none none sinks0).result.error
      = some ("ValueError" ++ ": " ++ "boom" ++ "\n"
          ++ format_exc { kind := "ValueError", msg := "boom" }) ∧
    strContainsB ((execute_code testLibs
        [Stmt.print "a", Stmt.raiseF "ValueError" "boom"]
        none none none sinks0).result.error.getD "") "ValueError" = true ∧
    strContainsB (execute_code testLibs
        [Stmt.print "a", Stmt.raiseF "ValueError" "boom"]
        none none none sinks0).result.output
      (printedUntilFault [Stmt.print "a", Stmt.raiseF "ValueError" "boom"])
      = true :=
  claim_C2_theorem testLibs [Stmt.print "a", Stmt.raiseF "ValueError" "boom"]
    none none none sinks0 { kind := "ValueError", msg := "boom" } rfl rfl

/-- Claim C3: for every input, `run_code` returns a result value: either
`success = true`, or `success = false` together with a non-empty
human-readable error string — faults from the submitted code, from
staging, and from the remote dispatch itself all surface this way, never
as a raised fault of the engine. -/
theorem claim_C3_theorem (libs : Libs) (code : Code) (timeout : Nat)
    (iu ou ft : Option String) (pre : Sinks) (modalErr : Option String) :
    (run_code libs code timeout iu ou ft pre modalErr).success = true ∨
    ((run_code libs code timeout iu ou ft pre modalErr).success = false ∧
      ∃ s, (run_code libs code timeout iu ou ft pre modalErr).error = some s ∧
        s ≠ "") := by
  cases modalErr with
  | some m =>
    right
    refine ⟨rfl, "Modal execution error: " ++ m, rfl, ?_⟩
    exact str_append_left_ne_empty _ _ (by decide)
  | none =>
    simp only [run_code]
    cases hb : (execBody libs code iu ou ft).2.2 with
    | none =>
      left
      simp only [execute_code, hb]
    | some e =>
      right
      refine ⟨?_, mkError e, ?_, mkError_ne_empty e⟩ <;>
        simp only [execute_code, hb]

/-- Claim C9, counterexample to the claim as stated: `run` in
`modal_quick_sandbox.py` restores `sys.__stdout__`/`sys.__stderr__` in
its `finally` block, not the sinks in place when the call began, so a
call entered with other sinks installed does not get them back. -/
theorem claim_C9_counterexample :
    (quick_run [] { stdout := Sink.ext 0, stderr := Sink.ext 1 }).2
      ≠ { stdout := Sink.ext 0, stderr := Sink.ext 1 } := by
  decide

/-- Claim C9 (amended): `execute_code` restores, on every exit path, the
sinks saved at entry — after any call the process-wide sinks equal the
ones in place before the call began; `run` in `modal_quick_sandbox.py`
restores, on every exit path, the interpreter-original sinks
`sys.__stdout__`/`sys.__stderr__`, which coincide with the pre-call
sinks only when those originals were installed at entry. In both, no
capture buffer remains installed after the call. -/
theorem claim_C9_theorem (libs : Libs) (code code2 : Code)
    (iu ou ft : Option String) (pre pre2 : Sinks) :
    (execute_code libs code iu ou ft pre).sinks = pre ∧
    (quick_run code2 pre2).2
      = { stdout := Sink.dunderOut, stderr := Sink.dunderErr } := by
  constructor
  · cases hb : (execBody libs code iu ou ft).2.2 <;>
      simp only [execute_code, hb]
  · rfl

/-- Claim C4, counterexample to the claim as stated: with `output_content`
bound to a value that is neither text, nor tabular, nor raw bytes (a
`dict`), the call does not fail with `SerializationError` — the source
has no such error; the value is passed through to the upload call, whose
own `TypeError` is what surfaces. -/
theorem claim_C4_counterexample :
    (execute_code testLibs [Stmt.bind "output_content" (Value.obj "dict" true)]
        none (some "u") none sinks0).result.success = false ∧
    strContainsB ((execute_code testLibs
        [Stmt.bind "output_content" (Value.obj "dict" true)]
        none (some "u") none sinks0).result.error.getD "")
      "SerializationError" = false := by
  decide

/-- Claim C4 (amended): the output materializer, given an output URL: if
`output_content` is absent from the post-execution namespace it attempts
no upload and the call still returns `success = true` (the code having
raised no fault); if present, it serializes by runtime type — text to
UTF-8 bytes verbatim, a tabular value to `to_csv(index=False)` text with
no index column, and any other value is passed through unchanged as the
upload payload (there is no `SerializationError` path; an unsupported
payload surfaces as the own fault of the upload call). -/
theorem claim_C4_theorem (libs : Libs) (code : Code) (url : String)
    (pre : Sinks) (st : ExecSt)
    (hrun : runStmts code
        { ns := initialNs,
          cap := capPrint { out := "", err := "" }
            "\n=== Executing User Code ===\n" } = (st, none)) :
    (nsGet st.ns "output_content" = none →
      (execute_code libs code none (some url) none pre).uploads = [] ∧
      (execute_code libs code none (some url) none pre).result.success
        = true) ∧
    (∀ s, nsGet st.ns "output_content" = some (Value.str s) →
      (execute_code libs code none (some url) none pre).uploads
        = [(url, Value.bytes (utf8Bytes s))]) ∧
    (∀ d, nsGet st.ns "output_content" = some (Value.df d) →
      (execute_code libs code none (some url) none pre).uploads
        = [(url, Value.bytes (utf8Bytes (to_csv d)))]) ∧
    (∀ v, nsGet st.ns "output_content" = some v →
      (∀ s, v ≠ Value.str s) → (∀ d, v ≠ Value.df d) →
      (execute_code libs code none (some url) none pre).uploads
        = [(url, v)]) := by
  have hb : execBody libs code none (some url) none
      = outputPhase libs url st.ns st.cap := by
    simp only [execBody, preExecPhase]
    rw [hrun]
  refine ⟨?_, ?_, ?_, ?_⟩
  · intro h0
    have ho : outputPhase libs url st.ns st.cap = (st.cap, [], none) := by
      simp only [outputPhase, h0]
    constructor
    · rw [execute_code_uploads, hb, ho]
    · simp only [execute_code, hb, ho]
  · intro s hs
    rw [execute_code_uploads, hb, outputPhase_uploads libs url st.ns st.cap _ hs]
    rfl
  · intro d hd
    rw [execute_code_uploads, hb, outputPhase_uploads libs url st.ns st.cap _ hd]
    rfl
  · intro v hv hns hnd
    rw [execute_code_uploads, hb, outputPhase_uploads libs url st.ns st.cap v hv]
    cases v with
    | str s => exact absurd rfl (hns s)
    | df d => exact absurd rfl (hnd d)
    | int n => rfl
    | bytes bs => rfl
    | metaRec m => rfl
    | pdfDoc pages => rfl
    | obj t p => rfl

/-- Claim C4, witness: code that sets `output_content` to the string
`"hello"` makes the call upload exactly the five bytes of `hello`. -/
theorem claim_C4_witness :
    (execute_code testLibs [Stmt.bind "output_content" (Value.str "hello")]
        none (some "u") none sinks0).uploads
      = [("u", Value.bytes [104, 101, 108, 108, 111])] := by
  have h := (claim_C4_theorem testLibs
      [Stmt.bind "output_content" (Value.str "hello")] "u" sinks0
      (runStmts [Stmt.bind "output_content" (Value.str "hello")]
        { ns := initialNs,
          cap := capPrint { out := "", err := "" }
            "\n=== Executing User Code ===\n" }).1
      rfl).2.1 "hello" (by decide)
  rw [h]
  decide

/-- Claim C5: the session-state filter drops every name beginning with a
double underscore and, for every remaining name, keeps the value as-is
when the pickling probe succeeds and otherwise replaces it with the
placeholder string naming the runtime type of the value; no bound non-dunder
name is omitted from the returned state. -/
theorem claim_C5_theorem (ns : Namespace) (k : String) (v : Value) :
    (startsDunder k = true → nsGet (filterState ns) k = none) ∧
    (startsDunder k = false → nsGet ns k = some v →
      nsGet (filterState ns) k
        = some (if picklable v then v
                else Value.str ("<" ++ typeName v ++ " object>"))) :=
  ⟨fun hk => filterState_get_dunder ns k hk,
   fun hk hv => filterState_get ns k v hk hv⟩

/-- Claim C5, witness: an unpicklable `Figure` value reappears as the
placeholder string, and the injected `__builtins__` is dropped. -/
theorem claim_C5_witness :
    nsGet (filterState [("__builtins__", Value.obj "module" false),
        ("fig", Value.obj "Figure" false), ("x", Value.int 7)]) "fig"
      = some (Value.str "<Figure object>") ∧
    nsGet (filterState [("__builtins__", Value.obj "module" false),
        ("fig", Value.obj "Figure" false), ("x", Value.int 7)])
      "__builtins__" = none := by
  constructor
  · exact (claim_C5_theorem [("__builtins__", Value.obj "module" false),
      ("fig", Value.obj "Figure" false), ("x", Value.int 7)] "fig"
      (Value.obj "Figure" false)).2 (by decide) (by decide)
  · exact (claim_C5_theorem [("__builtins__", Value.obj "module" false),
      ("fig", Value.obj "Figure" false), ("x", Value.int 7)] "__builtins__"
      (Value.int 0)).1 (by decide)

/-- Claim C6: session-mode round-trip — a non-dunder variable bound with a
picklable value by the code of call N appears, with the same value, in
the namespace that call N+1 executes against when the returned state is
passed back unmodified as the prior state. -/
theorem claim_C6_theorem (code : Code) (prev : Namespace) (st : ExecSt)
    (x : String) (v : Value)
    (hx : startsDunder x = false)
    (hrun : notebook_exec code prev = (st, none))
    (hv : nsGet st.ns x = some v)
    (hp : picklable v = true) :
    nsGet (notebook_initial_ns (run_notebook_cell code prev).state) x
      = some v := by
  have hstate : (run_notebook_cell code prev).state = filterState st.ns := by
    simp only [run_notebook_cell, hrun]
  have hfs : nsGet (filterState st.ns) x = some v := by
    have h2 := filterState_get st.ns x v hx hv
    rwa [if_pos hp] at h2
  rw [hstate]
  exact notebook_initial_ns_get hx hfs

/-- Claim C6, witness: an integer bound in call N survives the
round-trip into the namespace of call N+1. -/
theorem claim_C6_witness :
    nsGet (notebook_initial_ns
        (run_notebook_cell [Stmt.bind "x" (Value.int 42)] []).state) "x"
      = some (Value.int 42) :=
  claim_C6_theorem [Stmt.bind "x" (Value.int 42)] []
    (notebook_exec [Stmt.bind "x" (Value.int 42)] []).1 "x" (Value.int 42)
    (by decide) rfl (by decide) (by decide)

/-- Claim C7: the input materializer always binds the raw downloaded
bytes as `file_content` regardless of the hint; with hint `csv` it also
binds the decoded table as `df`; with hint `xpt` it binds `df` and
`meta`; with hint `pdf` it binds `pdf_reader`; with no (or an unknown)
hint only the raw-bytes binding is produced. -/
theorem claim_C7_theorem (libs : Libs) (url : String) (bs : List Nat)
    (hget : libs.requests_get url = Except.ok bs) :
    (∀ ft : Option String, ft ≠ some "csv" → ft ≠ some "xpt" →
      ft ≠ some "pdf" →
      (inputPhase libs url ft { out := "", err := "" } initialNs).fault
        = none ∧
      nsGet (inputPhase libs url ft { out := "", err := "" } initialNs).ns
        "file_content" = some (Value.bytes bs) ∧
      nsGet (inputPhase libs url ft { out := "", err := "" } initialNs).ns
        "df" = none ∧
      nsGet (inputPhase libs url ft { out := "", err := "" } initialNs).ns
        "meta" = none ∧
      nsGet (inputPhase libs url ft { out := "", err := "" } initialNs).ns
        "pdf_reader" = none) ∧
    (∀ d, libs.read_csv bs = Except.ok d →
      (inputPhase libs url (some "csv") { out := "", err := "" }
        initialNs).fault = none ∧
      nsGet (inputPhase libs url (some "csv") { out := "", err := "" }
        initialNs).ns "file_content" = some (Value.bytes bs) ∧
      nsGet (inputPhase libs url (some "csv") { out := "", err := "" }
        initialNs).ns "df" = some (Value.df d)) ∧
    (∀ d m, libs.read_xport bs = Except.ok (d, m) →
      (inputPhase libs url (some "xpt") { out := "", err := "" }
        initialNs).fault = none ∧
      nsGet (inputPhase libs url (some "xpt") { out := "", err := "" }
        initialNs).ns "file_content" = some (Value.bytes bs) ∧
      nsGet (inputPhase libs url (some "xpt") { out := "", err := "" }
        initialNs).ns "df" = some (Value.df d) ∧
      nsGet (inputPhase libs url (some "xpt") { out := "", err := "" }
        initialNs).ns "meta" = some (Value.metaRec m)) ∧
    (∀ pages, libs.PdfReader bs = Except.ok pages →
      (inputPhase libs url (some "pdf") { out := "", err := "" }
        initialNs).fault = none ∧
      nsGet (inputPhase libs url (some "pdf") { out := "", err := "" }
        initialNs).ns "file_content" = some (Value.bytes bs) ∧
      nsGet (inputPhase libs url (some "pdf") { out := "", err := "" }
        initialNs).ns "pdf_reader" = some (Value.pdfDoc pages)) := by
  refine ⟨?_, ?_, ?_, ?_⟩
  · intro ft h1 h2 h3
    simp only [inputPhase, hget, if_neg h1, if_neg h2, if_neg h3]
    refine ⟨?_, ?_, ?_, ?_, ?_⟩ <;> trivial
  · intro d hd
    simp only [inputPhase, hget, if_pos rfl, hd]
    refine ⟨?_, ?_, ?_⟩ <;> trivial
  · intro d m hdm
    have h2 : (some "xpt" : Option String) ≠ some "csv" := by decide
    simp only [inputPhase, hget, if_neg h2, if_pos rfl, hdm]
    refine ⟨?_, ?_, ?_, ?_⟩ <;> trivial
  · intro pages hp
    have h2 : (some "pdf" : Option String) ≠ some "csv" := by decide
    have h3 : (some "pdf" : Option String) ≠ some "xpt" := by decide
    simp only [inputPhase, hget, if_neg h2, if_neg h3, if_pos rfl, hp]
    refine ⟨?_, ?_, ?_⟩ <;> trivial

/-- Claim C7, witness at the concrete test environment, hint `csv`. -/
theorem claim_C7_witness :
    (inputPhase testLibs "u" (some "csv") { out := "", err := "" }
      initialNs).fault = none ∧
    nsGet (inputPhase testLibs "u" (some "csv") { out := "", err := "" }
      initialNs).ns "file_content"
      = some (Value.bytes [97, 44, 98, 10, 49, 44, 50]) ∧
    nsGet (inputPhase testLibs "u" (some "csv") { out := "", err := "" }
      initialNs).ns "df"
      = some (Value.df { cols := ["a", "b"], rows := [["1", "2"]] }) :=
  (claim_C7_theorem testLibs "u" [97, 44, 98, 10, 49, 44, 50] rfl).2.1
    { cols := ["a", "b"], rows := [["1", "2"]] } rfl

/-- Claim C8: no upload is attempted when the call faulted before the
output step — neither when input staging/decoding raised nor when the
submitted code raised; the upload runs only after user code completed
without a fault. -/
theorem claim_C8_theorem (libs : Libs) (code : Code)
    (iu ou ft : Option String) (pre : Sinks) (e : Fault)
    (h : (preExecPhase libs iu ft).fault = some e ∨
      ((preExecPhase libs iu ft).fault = none ∧ faultOf code = some e)) :
    (execute_code libs code iu ou ft pre).uploads = [] := by
  rw [execute_code_uploads]
  rcases h with h1 | ⟨h1, h2⟩
  · simp only [execBody, h1]
  · have hsnd := runStmts_snd code
      { ns := (preExecPhase libs iu ft).ns,
        cap := capPrint (preExecPhase libs iu ft).cap
          "\n=== Executing User Code ===\n" }
    rw [h2] at hsnd
    simp only [execBody, h1, hsnd]

/-- Claim C8, witness: code that raises makes the call perform no upload
even though an output URL was supplied. -/
theorem claim_C8_witness :
    (execute_code testLibs [Stmt.raiseF "ValueError" "bad"]
        none (some "u") none sinks0).uploads = [] :=
  claim_C8_theorem testLibs [Stmt.raiseF "ValueError" "bad"]
    none (some "u") none sinks0 { kind := "ValueError", msg := "bad" }
    (Or.inr ⟨rfl, rfl⟩)

/-- Claim C10: when a session-mode execution raises a fault, the returned
state is the empty mapping — every variable is absent from it — with
`success = false` and the rendered fault in the error field. -/
theorem claim_C10_theorem (code : Code) (prev : Namespace) (st : ExecSt)
    (e : Fault)
    (hrun : notebook_exec code prev = (st, some e)) :
    (run_notebook_cell code prev).success = false ∧
    (run_notebook_cell code prev).state = [] ∧
    (∀ x, nsGet (run_notebook_cell code prev).state x = none) ∧
    (run_notebook_cell code prev).error
      = e.kind ++ ": " ++ e.msg ++ "\n" ++ format_exc e := by
  simp only [run_notebook_cell, hrun]
  simp [nsGet]

/-- Claim C10, witness: a cell that binds a variable and then raises
returns the empty state. -/
theorem claim_C10_witness :
    (run_notebook_cell [Stmt.bind "x" (Value.int 1),
        Stmt.raiseF "ZeroDivisionError" "division by zero"] []).success
      = false ∧
    (run_notebook_cell [Stmt.bind "x" (Value.int 1),
        Stmt.raiseF "ZeroDivisionError" "division by zero"] []).state = [] ∧
    (∀ x, nsGet (run_notebook_cell [Stmt.bind "x" (Value.int 1),
        Stmt.raiseF "ZeroDivisionError" "division by zero"] []).state x
      = none) ∧
    (run_notebook_cell [Stmt.bind "x" (Value.int 1),
        Stmt.raiseF "ZeroDivisionError" "division by zero"] []).error
      = "ZeroDivisionError" ++ ": " ++ "division by zero" ++ "\n"
        ++ format_exc { kind := "ZeroDivisionError",
                        msg := "division by zero" } :=
  claim_C10_theorem [Stmt.bind "x" (Value.int 1),
      Stmt.raiseF "ZeroDivisionError" "division by zero"] []
    (notebook_exec [Stmt.bind "x" (Value.int 1),
      Stmt.raiseF "ZeroDivisionError" "division by zero"] []).1
    { kind := "ZeroDivisionError", msg := "division by zero" } rfl

end Trialytics
